import Mathlib

/-!
Verification of the Sockeon WebSocket client (sockeon/sockeon-js).

Shallow embedding of the connection-lifecycle state machine, the
reconnection/heartbeat policy and the envelope validation layer, translated
from `src/index.ts` (class Sockeon), the transport file
(class WebSocketTransport) and `src/types.ts`.

JavaScript numbers are modelled as rationals; JS timer handles are
modelled as option/bool fields recording whether a timer is pending; the
JS `Set<string>` of rooms is modelled as an insertion-ordered duplicate-free
list with the same add/delete semantics.
-/

/-- Decoded JSON value, the result of a successful JSON.parse. -/
inductive JsValue where
  | null : JsValue
  | bool (b : Bool) : JsValue
  | num (q : ℚ) : JsValue
  | str (s : String) : JsValue
  | arr (elems : List JsValue) : JsValue
  | obj (fields : List (String × JsValue)) : JsValue

/-- Field lookup on a decoded JSON object (post-parse, keys distinct). -/
def lookupField : List (String × JsValue) → String → Option JsValue
  | [], _ => none
  | (k, v) :: rest, key => if k = key then some v else lookupField rest key

/-- WebSocketTransport.isValidMessage: a decoded value passes iff it is an
object (JS `typeof` also lets arrays through, but a JSON array has no
`event` property so it fails the next check), its `event` field is a string
of non-zero length, and a `data` key is present. Translated from the
transport source, lines 159-177. -/
def isValidMessage (j : JsValue) : Bool :=
  match j with
  | .obj fields =>
      match lookupField fields "event" with
      | some (.str s) =>
          if s.length = 0 then false
          else (lookupField fields "data").isSome
      | _ => false
  | _ => false

/-- Outcome of the transport's inbound message handling: either the envelope
is delivered to the controller's onMessage, or an error is surfaced (the
message is dropped; the transport never closes the connection here). -/
inductive TransportDelivery where
  | message (event : String) (data : JsValue) : TransportDelivery
  | error (msg : String) : TransportDelivery

/-- WebSocketTransport.handleMessage on an already-decoded JSON value
(transport source, lines 137-148): validate the structure, then either
hand the envelope to onMessage or surface "Invalid message format" via
onError. -/
def handleMessageT (j : JsValue) : TransportDelivery :=
  match j with
  | .obj fields =>
      match lookupField fields "event", lookupField fields "data" with
      | some (.str s), some d =>
          if s.length = 0 then .error "Invalid message format"
          else .message s d
      | _, _ => .error "Invalid message format"
  | _ => .error "Invalid message format"

/-- Connection state, from types.ts (`ConnectionState`). -/
inductive ConnectionState where
  | disconnected
  | connecting
  | connected
  | reconnecting
  | closing
deriving DecidableEq, Repr

/-- Reconnection configuration, from types.ts (`ReconnectConfig`). -/
structure ReconnectConfig where
  enabled : Bool
  maxAttempts : ℕ
  delay : ℚ
  maxDelay : ℚ
  factor : ℚ
deriving DecidableEq, Repr

/-- Heartbeat configuration, from types.ts (`HeartbeatConfig`). -/
structure HeartbeatConfig where
  enabled : Bool
  interval : ℚ
  timeout : ℚ
deriving DecidableEq, Repr

/-- The mutable fields of the Sockeon client (src/index.ts, lines 42-51),
together with the normalized options the modelled operations read.  Timer
handles are modelled by whether a timer is pending (for the reconnect timer,
the delay it was scheduled with). -/
structure ClientState where
  state : ConnectionState
  reconnect : ReconnectConfig
  heartbeat : HeartbeatConfig
  ns : String
  reconnectAttempts : ℕ
  reconnectTimer : Option ℚ
  heartbeatTimer : Bool
  connectedAt : Option ℚ
  rooms : List String
  manualDisconnect : Bool
deriving DecidableEq, Repr

/-- Commands the controller issues to the transport. -/
inductive TransportCmd where
  | openT : TransportCmd
  | sendT (event : String) (data : JsValue) : TransportCmd
  | closeT (code : ℕ) (reason : String) : TransportCmd
  | pingT : TransportCmd

/-- Lifecycle and application events the controller emits to its event
emitter (observable by application handlers). -/
inductive LifecycleEvent where
  | connectEv (ns : String) : LifecycleEvent
  | disconnectEv (code : ℕ) (reason : String) : LifecycleEvent
  | errorEv (message : String) : LifecycleEvent
  | reconnectAttemptEv (attempt : ℕ) (delay : ℚ) : LifecycleEvent
  | reconnectFailedEv (attempts maxAttempts : ℕ) : LifecycleEvent
  | appEv (event : String) : LifecycleEvent
deriving DecidableEq, Repr

/-- JS `Set.add` on an insertion-ordered duplicate-free list. -/
def setAdd (l : List String) (x : String) : List String :=
  if x ∈ l then l else l ++ [x]

/-- JS `Set.delete` on an insertion-ordered duplicate-free list. -/
def setDelete (l : List String) (x : String) : List String :=
  l.filter (fun y => y != x)

/-- Sockeon.connect (src/index.ts, lines 137-146): no-op when already
connected or connecting; otherwise clear the manual-disconnect flag, move to
connecting and ask the transport to open. -/
def Sockeon.connect (c : ClientState) : ClientState × List TransportCmd :=
  if c.state = .connected ∨ c.state = .connecting then (c, [])
  else ({ c with manualDisconnect := false, state := .connecting }, [.openT])

/-- Sockeon.disconnect (src/index.ts, lines 151-160): set the manual flag,
cancel both timers, and if not already disconnected move to closing and ask
the transport to close with code 1000. -/
def Sockeon.disconnect (c : ClientState) : ClientState × List TransportCmd :=
  let c1 : ClientState :=
    { c with manualDisconnect := true, reconnectTimer := none,
             heartbeatTimer := false }
  if c1.state ≠ .disconnected then
    ({ c1 with state := .closing }, [.closeT 1000 "Client disconnect"])
  else (c1, [])

/-- The synchronous failures Sockeon.emit / joinRoom / leaveRoom throw. -/
inductive EmitError where
  | notConnected : EmitError
  | invalidEventName : EmitError
  | invalidPayloadShape : EmitError
deriving DecidableEq, Repr

/-- One character of the event-name character class `[a-zA-Z0-9._-]`. -/
def isEventChar (ch : Char) : Bool :=
  (('a' ≤ ch) && (ch ≤ 'z')) || (('A' ≤ ch) && (ch ≤ 'Z')) ||
    (('0' ≤ ch) && (ch ≤ '9')) || (ch == '.') || (ch == '_') || (ch == '-')

/-- The JS regex test `^[a-zA-Z0-9._-]+$` used by Sockeon.emit: at least one
character, and every character in the class. -/
def isValidEventName (event : String) : Bool :=
  (event.length != 0) && event.toList.all isEventChar

/-- The JS check `typeof data === "object" && data !== null`: among decoded
JSON values, exactly objects and arrays qualify. -/
def isObjectOrArray : JsValue → Bool
  | .obj _ => true
  | .arr _ => true
  | _ => false

/-- Sockeon.emit (src/index.ts, lines 187-206): requires state connected,
then a valid event name, then object-or-array data; on success hands the
envelope to the transport's send. -/
def Sockeon.emit (c : ClientState) (event : String) (data : JsValue) :
    Except EmitError (List TransportCmd) :=
  if c.state ≠ .connected then .error .notConnected
  else if !(isValidEventName event) then .error .invalidEventName
  else if !(isObjectOrArray data) then .error .invalidPayloadShape
  else .ok [.sendT event data]

/-- Sockeon.joinRoom (src/index.ts, lines 211-219): requires connected, adds
the room to the local set, then emits the reserved join_room envelope. -/
def Sockeon.joinRoom (c : ClientState) (room : String) :
    Except EmitError (ClientState × List TransportCmd) :=
  if c.state ≠ .connected then .error .notConnected
  else
    let c1 : ClientState := { c with rooms := setAdd c.rooms room }
    match Sockeon.emit c1 "join_room"
        (.obj [("room", .str room), ("namespace", .str c1.ns)]) with
    | .ok cmds => .ok (c1, cmds)
    | .error e => .error e

/-- Sockeon.leaveRoom (src/index.ts, lines 224-232): requires connected,
removes the room from the local set, then emits the leave_room envelope. -/
def Sockeon.leaveRoom (c : ClientState) (room : String) :
    Except EmitError (ClientState × List TransportCmd) :=
  if c.state ≠ .connected then .error .notConnected
  else
    let c1 : ClientState := { c with rooms := setDelete c.rooms room }
    match Sockeon.emit c1 "leave_room"
        (.obj [("room", .str room), ("namespace", .str c1.ns)]) with
    | .ok cmds => .ok (c1, cmds)
    | .error e => .error e

/-- Sockeon.handleConnect (src/index.ts, lines 272-288): move to connected,
record the connect timestamp, reset the attempt counter, clear the reconnect
timer, start the heartbeat when enabled, and emit the connect event. -/
def Sockeon.handleConnect (now : ℚ) (c : ClientState) :
    ClientState × List LifecycleEvent :=
  let c1 : ClientState :=
    { c with state := .connected, connectedAt := some now,
             reconnectAttempts := 0, reconnectTimer := none,
             heartbeatTimer :=
               if c.heartbeat.enabled then true else c.heartbeatTimer }
  (c1, [.connectEv c1.ns])

/-- The backoff delay computed by Sockeon.scheduleReconnect (src/index.ts,
lines 358-361): `Math.min(delay * factor ** attempts, maxDelay)`. -/
def currentDelay (cfg : ReconnectConfig) (attempts : ℕ) : ℚ :=
  min (cfg.delay * cfg.factor ^ attempts) cfg.maxDelay

/-- Sockeon.scheduleReconnect (src/index.ts, lines 344-378): when maxAttempts
is positive and already reached, emit reconnect_failed and stop (the stale
timer field is left untouched); otherwise compute the backoff delay,
increment the attempt counter, move to reconnecting, emit reconnect_attempt
with the post-increment counter, and schedule the single-shot timer. -/
def Sockeon.scheduleReconnect (c : ClientState) :
    ClientState × List LifecycleEvent :=
  if 0 < c.reconnect.maxAttempts ∧
      c.reconnect.maxAttempts ≤ c.reconnectAttempts then
    (c, [.reconnectFailedEv c.reconnectAttempts c.reconnect.maxAttempts])
  else
    let d := currentDelay c.reconnect c.reconnectAttempts
    let c1 : ClientState :=
      { c with reconnectAttempts := c.reconnectAttempts + 1,
               state := .reconnecting, reconnectTimer := some d }
    (c1, [.reconnectAttemptEv c1.reconnectAttempts d])

/-- The first half of Sockeon.handleDisconnect (src/index.ts, lines 303-315):
stop the heartbeat, remember whether the previous state was connected, set
state disconnected, clear the connect timestamp and the room set, and emit
the disconnect event only when previously connected. -/
def Sockeon.handleDisconnectCore (code : ℕ) (reason : String)
    (c : ClientState) : ClientState × List LifecycleEvent :=
  let wasConnected := c.state = .connected
  let c1 : ClientState :=
    { c with heartbeatTimer := false, state := .disconnected,
             connectedAt := none, rooms := [] }
  (c1, if wasConnected then [.disconnectEv code reason] else [])

/-- Sockeon.handleDisconnect (src/index.ts, lines 303-321): the core
disconnect processing followed, when the close was not manual and the
reconnect policy is enabled, by scheduleReconnect. -/
def Sockeon.handleDisconnect (code : ℕ) (reason : String) (c : ClientState) :
    ClientState × List LifecycleEvent :=
  let r := Sockeon.handleDisconnectCore code reason c
  if !r.1.manualDisconnect && r.1.reconnect.enabled then
    let r2 := Sockeon.scheduleReconnect r.1
    (r2.1, r.2 ++ r2.2)
  else r

/-- The interval callback installed by Sockeon.startHeartbeat (src/index.ts,
lines 397-401): when connected it calls the transport's sendPing, which is a
no-op placeholder (the transport source, lines 203-211, only logs); it never
reads the heartbeat timeout and never closes anything. -/
def Sockeon.heartbeatTick (c : ClientState) : ClientState × List TransportCmd :=
  if c.state = .connected then (c, [.pingT]) else (c, [])

/-- The interval callback of WebSocketTransport.startHeartbeat (transport
source, lines 216-233): if the time since the last pong exceeds the timeout,
close with code 1000 and reason "Heartbeat timeout", else ping.  No call to
WebSocketTransport.startHeartbeat exists anywhere in the repository
(Sockeon.startHeartbeat installs its own interval around the no-op
sendPing), so this callback is dead code; it is embedded to document what
the wired-up heartbeat was evidently meant to do. -/
def transportHeartbeatTick (now lastPongTime timeoutMs : ℚ) :
    Option (ℕ × String) :=
  if timeoutMs < now - lastPongTime then some (1000, "Heartbeat timeout")
  else none

/-- Sockeon.handleMessage (src/index.ts, lines 293-298): forward the inbound
envelope's event name and data to the event emitter, i.e. deliver it to the
application handlers registered for that exact name (and wildcard handlers).
No further validation happens at this layer. -/
def Sockeon.handleMessage (c : ClientState) (event : String)
    (_data : JsValue) : ClientState × List LifecycleEvent :=
  (c, [.appEv event])

/-- Sockeon.handleError (src/index.ts, lines 326-332): surface a transport
error as an error event; the connection state is untouched. -/
def Sockeon.handleError (c : ClientState) (message : String) :
    ClientState × List LifecycleEvent :=
  (c, [.errorEv message])

/-- The single-shot reconnect timer callback (src/index.ts, lines 374-377):
it only invokes the transport open; the controller state (including the
stale timer field) is unchanged. -/
def Sockeon.reconnectTimerFire (c : ClientState) :
    ClientState × List TransportCmd :=
  (c, [.openT])

/-- The default reconnect policy from normalizeOptions (src/index.ts, lines
73-79): enabled, maxAttempts 5, delay 1000, maxDelay 30000, factor 1.5. -/
def defaultReconnectCfg : ReconnectConfig := ⟨true, 5, 1000, 30000, 3/2⟩

/-- The default heartbeat policy from normalizeOptions (src/index.ts, lines
80-84): enabled, interval 30000, timeout 5000. -/
def defaultHeartbeatCfg : HeartbeatConfig := ⟨true, 30000, 5000⟩

/-- A connected client with default options, as produced by handleConnect at
time 0 on a fresh client. -/
def connectedExample : ClientState :=
  ⟨.connected, defaultReconnectCfg, defaultHeartbeatCfg, "/", 0, none, true,
    some 0, [], false⟩

/-- A fresh disconnected client with default options (the constructor's
initial field values, src/index.ts, lines 45-51). -/
def disconnectedExample : ClientState :=
  ⟨.disconnected, defaultReconnectCfg, defaultHeartbeatCfg, "/", 0, none,
    false, none, [], false⟩

/-- A client waiting out its first reconnect backoff: state reconnecting,
one attempt counted, the single-shot timer pending. -/
def reconnectingExample : ClientState :=
  ⟨.reconnecting, defaultReconnectCfg, defaultHeartbeatCfg, "/", 1,
    some 1000, false, none, [], false⟩

/-- Reconnect policy with maxAttempts 3 and otherwise default values. -/
def maxThreeCfg : ReconnectConfig := ⟨true, 3, 1000, 30000, 3/2⟩

/-- A connected client under the maxAttempts-3 policy, before any close. -/
def maxThreeStart : ClientState :=
  ⟨.connected, maxThreeCfg, defaultHeartbeatCfg, "/", 0, none, true,
    some 0, [], false⟩

/-- State and emitted events after the first unexpected close of the
maxAttempts-3 scenario.  Between consecutive closes only the reconnect
timer fires, which invokes the transport open without touching controller
state, so chaining handleDisconnect models consecutive failed attempts. -/
def maxThreeClose1 : ClientState × List LifecycleEvent :=
  Sockeon.handleDisconnect 1006 "connection lost" maxThreeStart

/-- After the second consecutive unexpected close. -/
def maxThreeClose2 : ClientState × List LifecycleEvent :=
  Sockeon.handleDisconnect 1006 "connection lost" maxThreeClose1.1

/-- After the third consecutive unexpected close. -/
def maxThreeClose3 : ClientState × List LifecycleEvent :=
  Sockeon.handleDisconnect 1006 "connection lost" maxThreeClose2.1

/-- After the fourth consecutive unexpected close, the one that ends the
third reconnect attempt. -/
def maxThreeClose4 : ClientState × List LifecycleEvent :=
  Sockeon.handleDisconnect 1006 "connection lost" maxThreeClose3.1

/-- The valid envelope example: event chat.send, empty-object data. -/
def goodEnvelope : JsValue :=
  .obj [("event", .str "chat.send"), ("data", .obj [])]

/-- Envelope with an empty event string. -/
def emptyEventEnvelope : JsValue :=
  .obj [("event", .str ""), ("data", .obj [])]

/-- Envelope with no data key. -/
def noDataEnvelope : JsValue := .obj [("event", .str "chat.send")]

/-- Envelope with no event key. -/
def noEventEnvelope : JsValue := .obj [("data", .obj [])]

/-- Envelope whose event name contains a space, outside the documented
event-name character class. -/
def spacedEventEnvelope : JsValue :=
  .obj [("event", .str "a b"), ("data", .obj [])]

/-- The transport delivers an envelope to onMessage exactly when
isValidMessage accepts it; otherwise the message is dropped with an error. -/
theorem handleMessageT_message_iff_valid (j : JsValue) :
    (∃ s d, handleMessageT j = .message s d) ↔ isValidMessage j = true := by
  cases j with
  | null => simp [handleMessageT, isValidMessage]
  | bool b => simp [handleMessageT, isValidMessage]
  | num q => simp [handleMessageT, isValidMessage]
  | str s => simp [handleMessageT, isValidMessage]
  | arr es => simp [handleMessageT, isValidMessage]
  | obj fields =>
      cases he : lookupField fields "event" with
      | none =>
          cases hd : lookupField fields "data" <;>
            simp [handleMessageT, isValidMessage, he, hd]
      | some v =>
          cases hd : lookupField fields "data" with
          | none =>
              cases v <;> simp [handleMessageT, isValidMessage, he, hd]
          | some dv =>
              cases v with
              | str se =>
                  by_cases hz : se.length = 0 <;>
                    simp [handleMessageT, isValidMessage, he, hd, hz]
              | null => simp [handleMessageT, isValidMessage, he, hd]
              | bool b => simp [handleMessageT, isValidMessage, he, hd]
              | num q => simp [handleMessageT, isValidMessage, he, hd]
              | arr es2 => simp [handleMessageT, isValidMessage, he, hd]
              | obj fs2 => simp [handleMessageT, isValidMessage, he, hd]

/-- While connected, joinRoom adds the room to the local set and sends the
join_room envelope carrying the room and namespace. -/
theorem joinRoom_eq (c : ClientState) (r : String) (h : c.state = .connected) :
    Sockeon.joinRoom c r =
      .ok ({ c with rooms := setAdd c.rooms r },
        [.sendT "join_room"
          (.obj [("room", .str r), ("namespace", .str c.ns)])]) := by
  have hv : isValidEventName "join_room" = true := by decide
  simp [Sockeon.joinRoom, Sockeon.emit, h, hv, isObjectOrArray]

/-- While connected, leaveRoom removes the room from the local set and sends
the leave_room envelope carrying the room and namespace. -/
theorem leaveRoom_eq (c : ClientState) (r : String)
    (h : c.state = .connected) :
    Sockeon.leaveRoom c r =
      .ok ({ c with rooms := setDelete c.rooms r },
        [.sendT "leave_room"
          (.obj [("room", .str r), ("namespace", .str c.ns)])]) := by
  have hv : isValidEventName "leave_room" = true := by decide
  simp [Sockeon.leaveRoom, Sockeon.emit, h, hv, isObjectOrArray]

/-- Deleting an element from the modelled JS set removes it. -/
theorem setDelete_not_mem (l : List String) (x : String) :
    x ∉ setDelete l x := by
  simp [setDelete]

/-- Adding an element to the modelled JS set twice equals adding it once. -/
theorem setAdd_idem (l : List String) (x : String) :
    setAdd (setAdd l x) x = setAdd l x := by
  unfold setAdd
  by_cases h : x ∈ l
  · simp [h]
  · simp [h]

/-- Claim C1.  The claim says a heartbeat tick that finds the liveness clock
staler than the timeout force-closes the transport with reason "heartbeat
timeout" and drives the disconnect/reconnect path.  In the code the interval
installed by Sockeon.startHeartbeat only calls the transport's no-op
sendPing: even when connected, heartbeat enabled and the last liveness
signal older than the timeout, the tick leaves the controller state
untouched and issues no close.  The staleness-checking tick the claim
describes exists verbatim in WebSocketTransport.startHeartbeat (third
conjunct), but that method is never invoked anywhere in the repository, so
the heartbeat timeout configuration is dead. -/
theorem c1_heartbeat_tick_never_closes (c : ClientState) (now last : ℚ)
    (hs : c.state = .connected) (he : c.heartbeat.enabled = true)
    (ht : c.heartbeatTimer = true)
    (hstale : c.heartbeat.timeout < now - last) :
    Sockeon.heartbeatTick c = (c, [.pingT]) ∧
    (Sockeon.heartbeatTick c).1 = c ∧
    transportHeartbeatTick now last c.heartbeat.timeout =
      some (1000, "Heartbeat timeout") := by
  refine ⟨?_, ?_, ?_⟩
  · simp [Sockeon.heartbeatTick, hs]
  · simp [Sockeon.heartbeatTick, hs]
  · simp [transportHeartbeatTick, hstale]

/-- Witness for C1: a connected default client whose last liveness signal is
6000 ms old (timeout 5000) still ticks to a bare ping, while the dead
transport-level tick would have closed. -/
theorem c1_witness :
    Sockeon.heartbeatTick connectedExample = (connectedExample, [.pingT]) ∧
    transportHeartbeatTick 6000 0 connectedExample.heartbeat.timeout =
      some (1000, "Heartbeat timeout") := by
  obtain ⟨h1, _, h3⟩ := c1_heartbeat_tick_never_closes connectedExample
    6000 0 rfl rfl rfl (by norm_num [connectedExample, defaultHeartbeatCfg])
  exact ⟨h1, h3⟩

/-- Claim C2.  For any reconnect policy with factor at least 1 and
non-negative initial delay: an uncapped scheduleReconnect at attempt counter
k emits reconnect_attempt number k+1 with delay min(delay * factor ^ k,
maxDelay) and increments the counter, the delay sequence is non-decreasing
in k and bounded by maxDelay, and the default policy (delay 1000, factor
1.5, maxDelay 30000) yields 1000, 1500, 2250, 3375, 5062.5, ..., capped at
30000 (reached by attempt counter 9). -/
theorem c2_backoff_delay_sequence (cfg : ReconnectConfig)
    (hf : 1 ≤ cfg.factor) (hd : 0 ≤ cfg.delay) :
    (∀ c : ClientState, c.reconnect = cfg →
      ¬(0 < cfg.maxAttempts ∧ cfg.maxAttempts ≤ c.reconnectAttempts) →
      (Sockeon.scheduleReconnect c).2 =
        [.reconnectAttemptEv (c.reconnectAttempts + 1)
          (min (cfg.delay * cfg.factor ^ c.reconnectAttempts) cfg.maxDelay)] ∧
      (Sockeon.scheduleReconnect c).1.reconnectAttempts =
        c.reconnectAttempts + 1) ∧
    (∀ k : ℕ, currentDelay cfg k ≤ currentDelay cfg (k + 1)) ∧
    (∀ k : ℕ, currentDelay cfg k ≤ cfg.maxDelay) ∧
    currentDelay defaultReconnectCfg 0 = 1000 ∧
    currentDelay defaultReconnectCfg 1 = 1500 ∧
    currentDelay defaultReconnectCfg 2 = 2250 ∧
    currentDelay defaultReconnectCfg 3 = 3375 ∧
    currentDelay defaultReconnectCfg 4 = 10125 / 2 ∧
    currentDelay defaultReconnectCfg 9 = 30000 := by
  refine ⟨?_, ?_, ?_, ?_, ?_, ?_, ?_, ?_, ?_⟩
  · intro c hc hno
    subst hc
    unfold Sockeon.scheduleReconnect currentDelay
    rw [if_neg hno]
    exact ⟨rfl, rfl⟩
  · intro k
    unfold currentDelay
    refine min_le_min ?_ le_rfl
    exact mul_le_mul_of_nonneg_left
      (pow_le_pow_right₀ hf (Nat.le_succ k)) hd
  · intro k
    exact min_le_right _ _
  · norm_num [currentDelay, defaultReconnectCfg, min_def]
  · norm_num [currentDelay, defaultReconnectCfg, min_def]
  · norm_num [currentDelay, defaultReconnectCfg, min_def]
  · norm_num [currentDelay, defaultReconnectCfg, min_def]
  · norm_num [currentDelay, defaultReconnectCfg, min_def]
  · norm_num [currentDelay, defaultReconnectCfg, min_def]

/-- Witness for C2 at the default policy. -/
theorem c2_backoff_delay_sequence_witness :
    (1 : ℚ) ≤ defaultReconnectCfg.factor ∧
      currentDelay defaultReconnectCfg 2 = 2250 := by
  refine ⟨by norm_num [defaultReconnectCfg], ?_⟩
  exact (c2_backoff_delay_sequence defaultReconnectCfg
    (by norm_num [defaultReconnectCfg])
    (by norm_num [defaultReconnectCfg])).2.2.2.2.2.1

/-- Claim C3, counterexample.  The claim says that with maxAttempts 3 the
third consecutive unexpected close emits reconnect_failed and schedules no
further attempt.  In the code, counting from a connected client: the first
close schedules attempt 1, the second close attempt 2, and the third close
still schedules attempt 3 — it emits reconnect_attempt number 3 with delay
2250, leaves a pending timer and moves to reconnecting; reconnect_failed is
not emitted yet. -/
theorem c3_counterexample :
    maxThreeClose1.2 =
      [.disconnectEv 1006 "connection lost", .reconnectAttemptEv 1 1000] ∧
    maxThreeClose2.2 = [.reconnectAttemptEv 2 1500] ∧
    maxThreeClose3.2 = [.reconnectAttemptEv 3 2250] ∧
    maxThreeClose3.1.reconnectTimer = some 2250 ∧
    maxThreeClose3.1.state = .reconnecting ∧
    maxThreeClose3.1.reconnectAttempts = 3 := by
  refine ⟨?_, ?_, ?_, ?_, ?_, ?_⟩ <;>
  norm_num [maxThreeClose1, maxThreeClose2, maxThreeClose3, maxThreeStart,
    maxThreeCfg, defaultHeartbeatCfg, Sockeon.handleDisconnect,
    Sockeon.handleDisconnectCore, Sockeon.scheduleReconnect, currentDelay,
    min_def] <;> decide

/-- Claim C3 as amended.  With maxAttempts 3 it is the fourth consecutive
unexpected close — the one ending the third reconnect attempt — that emits
reconnect_failed with attempts 3 and maxAttempts 3, emits no further
reconnect_attempt and leaves the controller parked in disconnected; and with
maxAttempts 0 the limit never applies: every unexpected non-manual close
with reconnect enabled increments the counter and schedules another
attempt. -/
theorem c3_amended :
    (maxThreeClose4.2 = [.reconnectFailedEv 3 3] ∧
     maxThreeClose4.1.state = .disconnected ∧
     maxThreeClose4.1.reconnectAttempts = 3) ∧
    (∀ (c : ClientState) (code : ℕ) (reason : String),
      c.reconnect.maxAttempts = 0 → c.manualDisconnect = false →
      c.reconnect.enabled = true →
      (Sockeon.handleDisconnect code reason c).1.reconnectAttempts =
        c.reconnectAttempts + 1 ∧
      (Sockeon.handleDisconnect code reason c).1.reconnectTimer =
        some (currentDelay c.reconnect c.reconnectAttempts)) := by
  constructor
  · refine ⟨?_, ?_, ?_⟩ <;>
      norm_num [maxThreeClose4, maxThreeClose3, maxThreeClose2,
        maxThreeClose1, maxThreeStart, maxThreeCfg, defaultHeartbeatCfg,
        Sockeon.handleDisconnect, Sockeon.handleDisconnectCore,
        Sockeon.scheduleReconnect, currentDelay, min_def] <;> decide
  · intro c code reason h0 hm he
    have hno : ¬(0 < c.reconnect.maxAttempts ∧
        c.reconnect.maxAttempts ≤ c.reconnectAttempts) := by
      rw [h0]; simp
    unfold Sockeon.handleDisconnect Sockeon.handleDisconnectCore
      Sockeon.scheduleReconnect
    simp [hm, he, hno]

/-- Witness for the amended C3: under maxAttempts 0 an unexpected close
always schedules another attempt. -/
theorem c3_amended_witness :
    ∃ c : ClientState, c.reconnect.maxAttempts = 0 ∧
      (Sockeon.handleDisconnect 1006 "x" c).1.reconnectAttempts =
        c.reconnectAttempts + 1 := by
  refine ⟨{ maxThreeStart with
    reconnect := { maxThreeCfg with maxAttempts := 0 } }, rfl, ?_⟩
  exact (c3_amended.2 { maxThreeStart with
    reconnect := { maxThreeCfg with maxAttempts := 0 } } 1006 "x"
    rfl rfl rfl).1

/-- Claim C4.  Processing a closed(code, reason) event from connecting,
connected or reconnecting: the heartbeat timer is stopped, the state is set
to disconnected (scheduleReconnect may then move it on to reconnecting,
which is the only other possible final state), the room set is cleared, the
connect timestamp is cleared, a disconnect event is emitted iff the previous
state was connected, and the reconnect-scheduling path — observable as
exactly one reconnect_attempt or reconnect_failed event — runs iff the
manual-disconnect flag is unset and the reconnect policy enabled. -/
theorem c4_closed_processing (code : ℕ) (reason : String) (c : ClientState)
    (h : c.state = .connecting ∨ c.state = .connected ∨
      c.state = .reconnecting) :
    (Sockeon.handleDisconnectCore code reason c).1.state = .disconnected ∧
    (Sockeon.handleDisconnect code reason c).1.heartbeatTimer = false ∧
    (Sockeon.handleDisconnect code reason c).1.rooms = [] ∧
    (Sockeon.handleDisconnect code reason c).1.connectedAt = none ∧
    ((.disconnectEv code reason ∈ (Sockeon.handleDisconnect code reason c).2) ↔
      c.state = .connected) ∧
    (((∃ a d, .reconnectAttemptEv a d ∈
          (Sockeon.handleDisconnect code reason c).2) ∨
      (∃ a m, .reconnectFailedEv a m ∈
          (Sockeon.handleDisconnect code reason c).2)) ↔
      (c.manualDisconnect = false ∧ c.reconnect.enabled = true)) ∧
    ((Sockeon.handleDisconnect code reason c).1.state = .disconnected ∨
      (Sockeon.handleDisconnect code reason c).1.state = .reconnecting) := by
  clear h
  unfold Sockeon.handleDisconnect Sockeon.handleDisconnectCore
    Sockeon.scheduleReconnect
  by_cases hm : c.manualDisconnect
  · by_cases hw : c.state = .connected <;>
      simp [hm, hw]
  · by_cases he : c.reconnect.enabled
    · by_cases hcap : 0 < c.reconnect.maxAttempts ∧
        c.reconnect.maxAttempts ≤ c.reconnectAttempts
      · by_cases hw : c.state = .connected <;>
          simp [hm, he, hcap, hw]
      · by_cases hw : c.state = .connected <;>
          simp [hm, he, hcap, hw]
    · by_cases hw : c.state = .connected <;>
        simp [hm, he, hw]

/-- Witness for C4 at a connected default client. -/
theorem c4_closed_processing_witness :
    (Sockeon.handleDisconnect 1006 "x" connectedExample).1.rooms = [] ∧
    .disconnectEv 1006 "x" ∈
      (Sockeon.handleDisconnect 1006 "x" connectedExample).2 := by
  obtain ⟨_, _, h3, _, h5, _, _⟩ :=
    c4_closed_processing 1006 "x" connectedExample (Or.inr (Or.inl rfl))
  exact ⟨h3, h5.mpr rfl⟩

/-- Claim C5.  The inbound shape validation accepts a decoded value iff it
is a JSON object with a non-empty string event and a present data key; the
chat.send example is accepted and delivered, while the empty-event, missing
data and missing event examples are each rejected — the transport drops the
message and surfaces "Invalid message format" through the error path, which
the controller turns into an error event without touching the connection
state. -/
theorem c5_envelope_validation :
    (∀ j : JsValue, isValidMessage j = true ↔
      ∃ fields s, j = .obj fields ∧
        lookupField fields "event" = some (.str s) ∧ s.length ≠ 0 ∧
        (lookupField fields "data").isSome = true) ∧
    isValidMessage goodEnvelope = true ∧
    handleMessageT goodEnvelope = .message "chat.send" (.obj []) ∧
    isValidMessage emptyEventEnvelope = false ∧
    handleMessageT emptyEventEnvelope = .error "Invalid message format" ∧
    isValidMessage noDataEnvelope = false ∧
    handleMessageT noDataEnvelope = .error "Invalid message format" ∧
    isValidMessage noEventEnvelope = false ∧
    handleMessageT noEventEnvelope = .error "Invalid message format" ∧
    (∀ (c : ClientState) (m : String),
      Sockeon.handleError c m = (c, [.errorEv m])) := by
  refine ⟨?_, ?_, rfl, ?_, rfl, ?_, rfl, ?_, rfl, fun c m => rfl⟩
  · intro j
    constructor
    · intro hv
      cases j with
      | obj fields =>
          cases he : lookupField fields "event" with
          | none => simp [isValidMessage, he] at hv
          | some v =>
              cases v with
              | str se =>
                  by_cases hz : se.length = 0
                  · simp [isValidMessage, he, hz] at hv
                  · cases hd : lookupField fields "data" with
                    | none => simp [isValidMessage, he, hz, hd] at hv
                    | some dv => exact ⟨fields, se, rfl, he, hz, by simp [hd]⟩
              | null => simp [isValidMessage, he] at hv
              | bool b => simp [isValidMessage, he] at hv
              | num q => simp [isValidMessage, he] at hv
              | arr es => simp [isValidMessage, he] at hv
              | obj fs => simp [isValidMessage, he] at hv
      | null => simp [isValidMessage] at hv
      | bool b => simp [isValidMessage] at hv
      | num q => simp [isValidMessage] at hv
      | str s => simp [isValidMessage] at hv
      | arr es => simp [isValidMessage] at hv
    · rintro ⟨fields, s, rfl, he, hz, hd⟩
      simp [isValidMessage, he, hz, hd]
  · rfl
  · rfl
  · rfl
  · rfl

/-- Witness for C5: the characterization applied to concrete envelopes. -/
theorem c5_envelope_validation_witness :
    isValidMessage goodEnvelope = true ∧
      isValidMessage (.obj [("event", .str "x"), ("data", .arr [])]) = true :=
  ⟨c5_envelope_validation.2.1,
    (c5_envelope_validation.1 _).mpr ⟨_, "x", rfl, rfl, by decide, rfl⟩⟩

/-- Claim C6, counterexample.  The claim says every envelope delivered to
application handlers has an event matching the character class and that an
event containing a space never reaches application code.  The inbound
validation enforces no character class: the envelope with event "a b" (which
fails the event-name test used on the outbound side) is accepted by
isValidMessage, delivered by the transport, and routed by the controller to
the application handlers registered for "a b". -/
theorem c6_counterexample :
    isValidEventName "a b" = false ∧
    isValidMessage spacedEventEnvelope = true ∧
    handleMessageT spacedEventEnvelope = .message "a b" (.obj []) ∧
    (Sockeon.handleMessage connectedExample "a b" (.obj [])).2 =
      [.appEv "a b"] :=
  ⟨by decide, rfl, rfl, rfl⟩

/-- Claim C6 as amended.  Inbound envelopes delivered to application
handlers are guaranteed only to have a non-empty string event and a present
data key (the full isValidMessage shape); the `[a-zA-Z0-9._-]+` pattern is
enforced solely on the outbound emit path, so inbound event names outside
that class do reach application code. -/
theorem c6_amended (j : JsValue) (s : String) (d : JsValue)
    (h : handleMessageT j = .message s d) :
    s.length ≠ 0 ∧ isValidMessage j = true := by
  have hv : isValidMessage j = true :=
    (handleMessageT_message_iff_valid j).mp ⟨s, d, h⟩
  refine ⟨?_, hv⟩
  cases j with
  | obj fields =>
      cases he : lookupField fields "event" with
      | none =>
          cases hd : lookupField fields "data" <;>
            simp [handleMessageT, he, hd] at h
      | some v =>
          cases hd : lookupField fields "data" with
          | none => cases v <;> simp [handleMessageT, he, hd] at h
          | some dv =>
              cases v with
              | str se =>
                  by_cases hz : se.length = 0
                  · simp [handleMessageT, he, hd, hz] at h
                  · simp [handleMessageT, he, hd, hz] at h
                    rw [← h.1]
                    exact hz
              | null => simp [handleMessageT, he, hd] at h
              | bool b => simp [handleMessageT, he, hd] at h
              | num q => simp [handleMessageT, he, hd] at h
              | arr es => simp [handleMessageT, he, hd] at h
              | obj fs => simp [handleMessageT, he, hd] at h
  | null => simp [handleMessageT] at h
  | bool b => simp [handleMessageT] at h
  | num q => simp [handleMessageT] at h
  | str st => simp [handleMessageT] at h
  | arr es => simp [handleMessageT] at h

/-- Witness for the amended C6 at the spaced-event envelope. -/
theorem c6_amended_witness :
    "a b".length ≠ 0 ∧ isValidMessage spacedEventEnvelope = true :=
  c6_amended spacedEventEnvelope "a b" (.obj []) rfl

/-- Claim C7.  emit(event, data) fails with NotConnected in every state
other than connected (before any other check); while connected it fails with
InvalidEventName for event names outside `[a-zA-Z0-9._-]+` (such as "a b")
and with InvalidPayloadShape for data that is neither object nor array (such
as the string "x" or null); when all checks pass the envelope is handed to
the transport's send. -/
theorem c7_emit_validation (c : ClientState) (event : String)
    (data : JsValue) :
    (c.state ≠ .connected → Sockeon.emit c event data = .error .notConnected) ∧
    (c.state = .connected → isValidEventName event = false →
      Sockeon.emit c event data = .error .invalidEventName) ∧
    (c.state = .connected → isValidEventName event = true →
      isObjectOrArray data = false →
      Sockeon.emit c event data = .error .invalidPayloadShape) ∧
    (c.state = .connected → isValidEventName event = true →
      isObjectOrArray data = true →
      Sockeon.emit c event data = .ok [.sendT event data]) ∧
    isValidEventName "a b" = false ∧
    isObjectOrArray (.str "x") = false ∧
    isObjectOrArray .null = false := by
  refine ⟨?_, ?_, ?_, ?_, by decide, rfl, rfl⟩
  · intro h
    simp [Sockeon.emit, h]
  · intro hs hn
    simp [Sockeon.emit, hs, hn]
  · intro hs hn hd
    simp [Sockeon.emit, hs, hn, hd]
  · intro hs hn hd
    simp [Sockeon.emit, hs, hn, hd]

/-- Witness for C7: the three failures and the success at concrete inputs. -/
theorem c7_emit_validation_witness :
    Sockeon.emit disconnectedExample "chat.send" (.obj []) =
        .error .notConnected ∧
    Sockeon.emit connectedExample "a b" (.obj []) =
        .error .invalidEventName ∧
    Sockeon.emit connectedExample "chat.send" (.str "x") =
        .error .invalidPayloadShape ∧
    Sockeon.emit connectedExample "chat.send" (.obj []) =
        .ok [.sendT "chat.send" (.obj [])] := by
  refine ⟨?_, ?_, ?_, ?_⟩
  · exact (c7_emit_validation disconnectedExample "chat.send" (.obj [])).1
      (by decide)
  · exact (c7_emit_validation connectedExample "a b" (.obj [])).2.1
      (by decide) (by decide)
  · exact (c7_emit_validation connectedExample "chat.send" (.str "x")).2.2.1
      (by decide) (by decide) rfl
  · exact (c7_emit_validation connectedExample "chat.send" (.obj [])).2.2.2.1
      (by decide) (by decide) rfl

/-- Claim C8, counterexample.  The claim says connect() is a no-op in every
state other than disconnected and closing, naming reconnecting among the
no-op states.  In the code the guard only covers connected and connecting:
from reconnecting, connect() clears the manual flag, moves the state to
connecting and asks the transport to open — not a no-op. -/
theorem c8_counterexample :
    (Sockeon.connect reconnectingExample).1.state = .connecting ∧
    reconnectingExample.state = .reconnecting ∧
    (Sockeon.connect reconnectingExample).2 = [.openT] ∧
    (Sockeon.connect reconnectingExample).1.manualDisconnect = false := by
  refine ⟨?_, rfl, ?_, ?_⟩ <;> simp [Sockeon.connect, reconnectingExample]

/-- Claim C8 as amended.  connect() is a no-op exactly in the connected and
connecting states; from disconnected, closing and also reconnecting it
clears the manual-disconnect flag, moves to connecting and initiates a fresh
transport open. -/
theorem c8_amended (c : ClientState) :
    (c.state = .connected ∨ c.state = .connecting →
      Sockeon.connect c = (c, [])) ∧
    (c.state = .disconnected ∨ c.state = .closing ∨ c.state = .reconnecting →
      Sockeon.connect c =
        ({ c with manualDisconnect := false, state := .connecting },
          [.openT])) := by
  constructor
  · intro h
    simp [Sockeon.connect, h]
  · intro h
    have hne : ¬(c.state = .connected ∨ c.state = .connecting) := by
      rcases h with h | h | h <;> rw [h] <;> decide
    simp [Sockeon.connect, hne]

/-- Witness for the amended C8. -/
theorem c8_amended_witness :
    Sockeon.connect connectedExample = (connectedExample, []) ∧
    Sockeon.connect reconnectingExample =
      ({ reconnectingExample with
          manualDisconnect := false, state := .connecting }, [.openT]) := by
  constructor
  · exact (c8_amended connectedExample).1 (Or.inl rfl)
  · exact (c8_amended reconnectingExample).2 (Or.inr (Or.inr rfl))

/-- Claim C9.  While connected, for every room name and starting room set:
joinRoom then leaveRoom of the same room leaves the room absent (and an
empty starting set empty again), and joinRoom twice leaves the room set
exactly as after one join (from the empty set, exactly the one member). -/
theorem c9_room_roundtrip (c : ClientState) (r : String)
    (h : c.state = .connected) :
    (∃ c1 cmds1 c2 cmds2,
      Sockeon.joinRoom c r = .ok (c1, cmds1) ∧
      Sockeon.leaveRoom c1 r = .ok (c2, cmds2) ∧
      r ∉ c2.rooms ∧ (c.rooms = [] → c2.rooms = [])) ∧
    (∃ c1 cmds1 c2 cmds2,
      Sockeon.joinRoom c r = .ok (c1, cmds1) ∧
      Sockeon.joinRoom c1 r = .ok (c2, cmds2) ∧
      c2.rooms = c1.rooms ∧ (c.rooms = [] → c2.rooms = [r])) := by
  constructor
  · refine ⟨_, _, _, _, joinRoom_eq c r h, leaveRoom_eq _ r h, ?_, ?_⟩
    · exact setDelete_not_mem _ r
    · intro he
      simp [he, setAdd, setDelete]
  · refine ⟨_, _, _, _, joinRoom_eq c r h, joinRoom_eq _ r h, ?_, ?_⟩
    · exact setAdd_idem c.rooms r
    · intro he
      simp [he, setAdd]

/-- Witness for C9 at a connected default client and room "r1". -/
theorem c9_room_roundtrip_witness :
    ∃ c1 cmds1 c2 cmds2,
      Sockeon.joinRoom connectedExample "r1" = .ok (c1, cmds1) ∧
      Sockeon.leaveRoom c1 "r1" = .ok (c2, cmds2) ∧
      "r1" ∉ c2.rooms ∧ c2.rooms = [] := by
  obtain ⟨c1, cmds1, c2, cmds2, h1, h2, h3, h4⟩ :=
    (c9_room_roundtrip connectedExample "r1" rfl).1
  exact ⟨c1, cmds1, c2, cmds2, h1, h2, h3, h4 rfl⟩

/-- Claim C10.  disconnect() while connected moves the state to closing
before the transport's closed event arrives, so the closed handler's
was-connected check fails: the whole processing of the subsequent closed
event emits no events at all — in particular no disconnect lifecycle event
reaches the application, for any close code and reason. -/
theorem c10_manual_disconnect_suppresses_event (c : ClientState) (code : ℕ)
    (reason : String) (h : c.state = .connected) :
    (Sockeon.disconnect c).1.state = .closing ∧
    (Sockeon.handleDisconnect code reason (Sockeon.disconnect c).1).2 = [] ∧
    (.disconnectEv code reason ∉
      (Sockeon.handleDisconnect code reason (Sockeon.disconnect c).1).2) := by
  have h1 : (Sockeon.disconnect c).1.state = .closing := by
    simp [Sockeon.disconnect, h]
  have h2 : (Sockeon.disconnect c).1.manualDisconnect = true := by
    simp [Sockeon.disconnect, h]
  refine ⟨h1, ?_, ?_⟩ <;>
    { unfold Sockeon.handleDisconnect Sockeon.handleDisconnectCore
      simp [h1, h2] }

/-- Witness for C10 at a connected default client. -/
theorem c10_witness :
    (Sockeon.handleDisconnect 1000 "Client disconnect"
      (Sockeon.disconnect connectedExample).1).2 = [] :=
  (c10_manual_disconnect_suppresses_event connectedExample 1000
    "Client disconnect" rfl).2.1
